import Mathlib

/-!
Shallow embedding of the voice-telephony recording pipeline
(src/agent.py, src/process_recording.py, src/webhook_server.py).

External effects (S3 download, STT provider calls, HTTP POSTs, egress
start, room deletion, sleeps) are modelled by an oracle `World` that fixes
the outcome of each external call, together with an explicit trace of
`Effect`s the code issues.  The local filesystem is a predicate
`FS : String → Bool` (which paths exist).  Python exceptions are
`Except String _`; a function whose Python body catches all exceptions
returns a plain value instead.
-/

namespace Telnyx

/-- Configuration values read from the environment at import time
(`S3_BUCKET`, `S3_REGION`, `ACCESS_SUPABASE`, `SECRET_SUPABASE`,
`ENDPOINT_SUPABASE`, `ENABLE_RECORDING`, `STT_PROVIDER`,
`TRANSCRIPT_WEBHOOK_URL`), shared by agent.py and process_recording.py. -/
structure Config where
  S3_BUCKET : String
  S3_REGION : String
  S3_ACCESS_KEY : String
  S3_SECRET_KEY : String
  S3_ENDPOINT : String
  ENABLE_RECORDING : Bool
  STT_PROVIDER : String
  TRANSCRIPT_WEBHOOK_URL : String
  deriving Repr, DecidableEq

/-- One observable external side effect issued by the code. -/
inductive Effect where
  | downloadCall (bucket key localPath : String)
  | transcribeCall (provider audioPath : String)
  | webhookPost (url : String) (payload : List (String × String)) (timeoutSecs : Nat)
  | egressStart (roomName filepath bucket region accessKey secretKey endpoint : String)
      (audioOnly forcePathStyle : Bool)
  | sleepMs (ms : Nat)
  | deleteRoom (room : String)
  deriving Repr, DecidableEq

/-- Oracle fixing the result of every external call the code can make. -/
structure World where
  downloadOk : Bool
  downloadWrites : Bool
  transcribeOpenaiResult : Except String String
  transcribeGoogleResult : Except String String
  transcribeDeepgramResult : Except String String
  postResult : Except String Nat
  egressResult : Except String String
  jobCtxRoom : Option String
  deleteRoomResult : Except String Unit
  deriving Repr

/-- Local filesystem: which absolute paths currently exist. -/
def FS : Type := String → Bool

/-- Python str.replace on character lists, fuel-bounded so that it is
structural (fuel is the length of the subject, one step per character). -/
def replListAux (pat rep : List Char) : Nat → List Char → List Char
  | _, [] => []
  | 0, s => s
  | fuel + 1, c :: rest =>
    if pat.isPrefixOf (c :: rest) then
      rep ++ replListAux pat rep fuel (List.drop (pat.length - 1) rest)
    else
      c :: replListAux pat rep fuel rest

/-- Python s.replace(pat, rep) for a nonempty pattern: replaces every
non-overlapping occurrence of pat in s, scanning left to right. -/
def pyReplace (s pat rep : String) : String :=
  ⟨replListAux pat.data rep.data s.data.length s.data⟩

/-- Does pat occur as a contiguous substring of s? -/
def occursIn (pat : List Char) : List Char → Bool
  | [] => pat.isEmpty
  | c :: rest => pat.isPrefixOf (c :: rest) || occursIn pat rest

/-- download_from_s3 (process_recording.py lines 40-64): always uses the
configured bucket, derives the key by replacing every occurrence of
the string s3 colon slash slash bucket slash with the empty string, issues one
download request, returns True on success and False on any exception
(all exceptions caught).  The local file is created when the download
succeeds (or when the oracle says a partial write happened). -/
def download_from_s3 (cfg : Config) (w : World) (fs : FS) (s3_path local_path : String) :
    Bool × FS × List Effect :=
  let bucket := cfg.S3_BUCKET
  let key := pyReplace s3_path ("s3://" ++ bucket ++ "/") ""
  let fs1 : FS :=
    if w.downloadOk || w.downloadWrites then fun p => p = local_path || fs p else fs
  (w.downloadOk, fs1, [Effect.downloadCall bucket key local_path])

/-- transcribe_openai (lines 67-87): one OpenAI Whisper call; success
returns the text, failure is logged and re-raised. -/
def transcribe_openai (w : World) (audio_path : String) :
    Except String String × List Effect :=
  (w.transcribeOpenaiResult, [Effect.transcribeCall "openai" audio_path])

/-- transcribe_google (lines 90-117): one Google STT call; success returns
the text, failure is logged and re-raised. -/
def transcribe_google (w : World) (audio_path : String) :
    Except String String × List Effect :=
  (w.transcribeGoogleResult, [Effect.transcribeCall "google" audio_path])

/-- transcribe_deepgram (lines 120-148): one Deepgram call; success returns
the text, failure is logged and re-raised. -/
def transcribe_deepgram (w : World) (audio_path : String) :
    Except String String × List Effect :=
  (w.transcribeDeepgramResult, [Effect.transcribeCall "deepgram" audio_path])

/-- send_transcript_webhook (lines 151-174): no-op when no webhook URL is
configured; otherwise one POST with the four-key JSON payload and a
30-second timeout, any exception caught and logged (so the function
never raises: its result type carries no exception). -/
def send_transcript_webhook (cfg : Config) (room_name transcript s3_path : String) :
    List Effect :=
  if cfg.TRANSCRIPT_WEBHOOK_URL = "" then []
  else
    [Effect.webhookPost cfg.TRANSCRIPT_WEBHOOK_URL
      [("room_name", room_name), ("transcript", transcript),
       ("audio_file", s3_path), ("stt_provider", cfg.STT_PROVIDER)] 30]

/-- The local temporary path used by process_recording. -/
def tmpLocalPath (room_name : String) : String :=
  "/tmp/livekit-recordings/" ++ room_name ++ ".mp3"

/-- process_recording (lines 177-216): download, dispatch on STT_PROVIDER,
send webhook, and in a finally block unlink the temp file if it exists.
Result is the propagated exception (only a transcription failure can
raise), the final filesystem, and the effect trace. -/
def process_recording (cfg : Config) (w : World) (fs : FS) (s3_path room_name : String) :
    Except String Unit × FS × List Effect :=
  let local_path := tmpLocalPath room_name
  let dl := download_from_s3 cfg w fs s3_path local_path
  let fs1 := dl.2.1
  let tr1 := dl.2.2
  let afterT : Except String String × List Effect → Except String Unit × List Effect :=
    fun t =>
      match t.1 with
      | Except.error e => (Except.error e, tr1 ++ t.2)
      | Except.ok transcript =>
          (Except.ok (),
           tr1 ++ t.2 ++ send_transcript_webhook cfg room_name transcript s3_path)
  let body : Except String Unit × List Effect :=
    if dl.1 = false then (Except.ok (), tr1)
    else if cfg.STT_PROVIDER = "openai" then afterT (transcribe_openai w local_path)
    else if cfg.STT_PROVIDER = "google" then afterT (transcribe_google w local_path)
    else if cfg.STT_PROVIDER = "deepgram" then afterT (transcribe_deepgram w local_path)
    else (Except.ok (), tr1)
  let fs2 : FS :=
    if fs1 local_path then fun p => if p = local_path then false else fs1 p else fs1
  (body.1, fs2, body.2)

/-- A JSON file-result object inside egressInfo.fileResults. -/
structure FileResult where
  location : Option String
  deriving Repr, DecidableEq

/-- The egressInfo JSON object of the inbound webhook. -/
structure EgressInfo where
  roomName : Option String
  status : Option String
  fileResults : List FileResult
  deriving Repr, DecidableEq

/-- The inbound webhook JSON body. -/
structure WebhookData where
  event : Option String
  egressInfo : Option EgressInfo
  deriving Repr, DecidableEq

/-- webhook_data.get("egressInfo", dict()) of the source. -/
def eInfo (d : WebhookData) : EgressInfo :=
  d.egressInfo.getD ⟨none, none, []⟩

/-- handle_egress_webhook (lines 219-249).  The result models the call it
makes to process_recording: none when the event is logged and
discarded, some (s3_path, room_name) when process_recording is awaited
with those arguments (room_name comes straight from the .get and can be
None).  No branch of the Python body can raise. -/
def handle_egress_webhook (data : WebhookData) : Option (String × Option String) :=
  if data.event ≠ some "egress_ended" then none
  else
    let egress_info := eInfo data
    let room_name := egress_info.roomName
    if egress_info.status ≠ some "EGRESS_COMPLETE" then none
    else
      match egress_info.fileResults with
      | [] => none
      | file_info :: _ =>
        match file_info.location with
        | none => none
        | some s3_path => if s3_path = "" then none else some (s3_path, room_name)

/-- The CLI path construction in the main block of process_recording.py
(line 258). -/
def cli_s3_path (cfg : Config) (room_name : String) : String :=
  "s3://" ++ cfg.S3_BUCKET ++ "/calls/" ++ room_name ++ ".mp3"

/-- hangup_call (agent.py lines 47-52): no-op when get_job_context returns
None, otherwise one delete_room request whose exception propagates. -/
def hangup_call (w : World) : Except String Unit × List Effect :=
  match w.jobCtxRoom with
  | none => (Except.ok (), [])
  | some room =>
    match w.deleteRoomResult with
    | Except.ok () => (Except.ok (), [Effect.deleteRoom room])
    | Except.error e => (Except.error e, [Effect.deleteRoom room])

/-- Assistant.hang_up (agent.py lines 79-95): sleep 0.5 s, hangup_call,
sleep 2.0 s, return the success message; an exception from hangup_call
propagates uncaught (so the second sleep and the return are skipped). -/
def hang_up (w : World) : Except String String × List Effect :=
  let h := hangup_call w
  match h.1 with
  | Except.error e => (Except.error e, Effect.sleepMs 500 :: h.2)
  | Except.ok () =>
      (Except.ok "Call ended successfully",
       Effect.sleepMs 500 :: h.2 ++ [Effect.sleepMs 2000])

/-- start_recording (agent.py lines 98-148): None when recording is
disabled; None when any of the four storage credentials is empty (no
egress request in either case); otherwise one start_room_composite_egress
request, returning the egress id on success and None on any exception. -/
def start_recording (cfg : Config) (w : World) (room_name : String) :
    Option String × List Effect :=
  if cfg.ENABLE_RECORDING = false then (none, [])
  else if cfg.S3_BUCKET = "" || cfg.S3_REGION = "" || cfg.S3_ACCESS_KEY = ""
      || cfg.S3_SECRET_KEY = "" then (none, [])
  else
    let tr := [Effect.egressStart room_name ("calls/" ++ room_name ++ ".mp3")
      cfg.S3_BUCKET cfg.S3_REGION cfg.S3_ACCESS_KEY cfg.S3_SECRET_KEY cfg.S3_ENDPOINT
      true true]
    match w.egressResult with
    | Except.ok egress_id => (some egress_id, tr)
    | Except.error _ => (none, tr)

/-- Is an effect an outbound transcript webhook POST? -/
def isWebhookPost : Effect → Bool
  | Effect.webhookPost _ _ _ => true
  | _ => false

/-- Is an effect a transcription provider invocation? -/
def isTranscribeCall : Effect → Bool
  | Effect.transcribeCall _ _ => true
  | _ => false

/-- The outcome of the provider dispatched to by the if-chain of
process_recording (lines 194-202): some result for the three supported
providers, none for an unknown provider string. -/
def transcribeOracle (cfg : Config) (w : World) : Option (Except String String) :=
  if cfg.STT_PROVIDER = "openai" then some w.transcribeOpenaiResult
  else if cfg.STT_PROVIDER = "google" then some w.transcribeGoogleResult
  else if cfg.STT_PROVIDER = "deepgram" then some w.transcribeDeepgramResult
  else none

/-- A sample configuration with recording enabled, complete credentials,
the openai provider and a configured webhook URL. -/
def cfgEx : Config :=
  ⟨"mybucket", "eu-central-1", "AK", "SK", "https://endpoint.example", true,
   "openai", "https://hook.example"⟩

/-- A sample oracle in which every external call succeeds. -/
def wEx : World :=
  ⟨true, false, Except.ok "hello there", Except.ok "gtext", Except.ok "dtext",
   Except.ok 200, Except.ok "EG_123", some "room-1", Except.ok ()⟩

/-- An empty local filesystem. -/
def fsEmpty : FS := fun _ => false

/-- A webhook payload that is complete except for the roomName field. -/
def dataMissingRoom : WebhookData :=
  ⟨some "egress_ended",
   some ⟨none, some "EGRESS_COMPLETE", [⟨some "s3://b/calls/x.mp3"⟩]⟩⟩

end Telnyx

namespace Telnyx

theorem replListAux_no_occurrence (pat rep : List Char) :
    ∀ fuel s, occursIn pat s = false → replListAux pat rep fuel s = s := by
  intro fuel
  induction fuel with
  | zero => intro s h; cases s <;> rfl
  | succ n ih =>
    intro s h
    cases s with
    | nil => rfl
    | cons c rest =>
      rw [occursIn] at h
      simp only [Bool.or_eq_false_iff] at h
      rw [replListAux]
      simp [h.1, ih rest h.2]

theorem pyReplace_no_occurrence (s pat rep : String)
    (h : occursIn pat.data s.data = false) : pyReplace s pat rep = s := by
  unfold pyReplace
  rw [replListAux_no_occurrence pat.data rep.data s.data.length s.data h]

/-- Claim C1: once process_recording returns or raises - download failure,
unknown provider, transcription exception, or full success - the local
temporary file /tmp/livekit-recordings/(room_name).mp3 does not exist,
because the finally block unlinks it whenever it exists. -/
theorem process_recording_temp_file_absent (cfg : Config) (w : World) (fs : FS)
    (s3_path room_name : String) :
    (process_recording cfg w fs s3_path room_name).2.1 (tmpLocalPath room_name) = false := by
  dsimp only [process_recording]
  by_cases h : (download_from_s3 cfg w fs s3_path (tmpLocalPath room_name)).2.1 (tmpLocalPath room_name)
  · simp [h]
  · simp [h]

/-- Claim C9: hang_up sleeps 0.5 s, requests deletion of the room, sleeps
2.0 s, then returns the message Call ended successfully; when the
room-deletion request raises, the exception propagates uncaught and the
second sleep and the return are skipped. -/
theorem hang_up_spec (w : World) (room : String)
    (hc : w.jobCtxRoom = some room) :
    (w.deleteRoomResult = Except.ok () →
       hang_up w = (Except.ok "Call ended successfully",
         [Effect.sleepMs 500, Effect.deleteRoom room, Effect.sleepMs 2000])) ∧
    (∀ e, w.deleteRoomResult = Except.error e →
       hang_up w = (Except.error e, [Effect.sleepMs 500, Effect.deleteRoom room])) := by
  constructor
  · intro hd
    simp [hang_up, hangup_call, hc, hd]
  · intro e hd
    simp [hang_up, hangup_call, hc, hd]

theorem hang_up_spec_witness :
    hang_up wEx = (Except.ok "Call ended successfully",
      [Effect.sleepMs 500, Effect.deleteRoom "room-1", Effect.sleepMs 2000]) :=
  (hang_up_spec wEx "room-1" rfl).1 rfl

/-- Claim C10: download_from_s3 always issues its storage request against the
configured S3_BUCKET, never against the bucket named in the path, and
derives the key by removing every occurrence of the substring
s3://(configured bucket)/ from the path; when that substring does not
occur in the path, the key is the entire unmodified URI string. -/
theorem download_from_s3_spec (cfg : Config) (w : World) (fs : FS) (s3_path local_path : String) :
    (download_from_s3 cfg w fs s3_path local_path).2.2 =
      [Effect.downloadCall cfg.S3_BUCKET
        (pyReplace s3_path ("s3://" ++ cfg.S3_BUCKET ++ "/") "") local_path] ∧
    (occursIn ("s3://" ++ cfg.S3_BUCKET ++ "/").data s3_path.data = false →
      pyReplace s3_path ("s3://" ++ cfg.S3_BUCKET ++ "/") "" = s3_path) := by
  constructor
  · rfl
  · intro h
    exact pyReplace_no_occurrence _ _ _ h

theorem download_from_s3_spec_witness :
    (download_from_s3 cfgEx wEx fsEmpty "s3://otherbucket/calls/x.mp3" "/tmp/x.mp3").2.2 =
      [Effect.downloadCall "mybucket" "s3://otherbucket/calls/x.mp3" "/tmp/x.mp3"] := by
  have h := download_from_s3_spec cfgEx wEx fsEmpty "s3://otherbucket/calls/x.mp3" "/tmp/x.mp3"
  have hk := h.2 (by decide)
  rw [h.1, hk]
  rfl

end Telnyx

namespace Telnyx

/-- Claim C2: start_recording never propagates an exception and returns either
the egress job identifier or none; it returns none without issuing the
egress request when recording is disabled or any of the four storage
credentials is empty, and returns none when the egress call raises. -/
theorem start_recording_spec (cfg : Config) (w : World) (room_name : String) :
    ((cfg.ENABLE_RECORDING = false ∨ cfg.S3_BUCKET = "" ∨ cfg.S3_REGION = ""
        ∨ cfg.S3_ACCESS_KEY = "" ∨ cfg.S3_SECRET_KEY = "") →
      start_recording cfg w room_name = (none, [])) ∧
    (∀ e, w.egressResult = Except.error e → (start_recording cfg w room_name).1 = none) ∧
    ((start_recording cfg w room_name).1 = none ∨
      ∃ egress_id, w.egressResult = Except.ok egress_id ∧
        (start_recording cfg w room_name).1 = some egress_id) := by
  refine ⟨?_, ?_, ?_⟩
  · intro h
    rcases h with h | h | h | h | h <;> simp [start_recording, h]
  · intro e he
    by_cases h1 : cfg.ENABLE_RECORDING = false
    · simp [start_recording, h1]
    · by_cases h2 : cfg.S3_BUCKET = "" || cfg.S3_REGION = "" || cfg.S3_ACCESS_KEY = ""
          || cfg.S3_SECRET_KEY = ""
      · simp [start_recording, h1, h2]
      · simp [start_recording, h1, h2, he]
  · by_cases h1 : cfg.ENABLE_RECORDING = false
    · left; simp [start_recording, h1]
    · by_cases h2 : cfg.S3_BUCKET = "" || cfg.S3_REGION = "" || cfg.S3_ACCESS_KEY = ""
          || cfg.S3_SECRET_KEY = ""
      · left; simp [start_recording, h1, h2]
      · cases he : w.egressResult with
        | ok egress_id =>
          right; exact ⟨egress_id, rfl, by simp [start_recording, h1, h2, he]⟩
        | error e => left; simp [start_recording, h1, h2, he]

theorem start_recording_spec_witness :
    start_recording ⟨"", "r", "a", "s", "e", true, "openai", ""⟩ wEx "room-1" = (none, []) :=
  (start_recording_spec ⟨"", "r", "a", "s", "e", true, "openai", ""⟩ wEx "room-1").1
    (Or.inr (Or.inl rfl))

/-- Claim C3 counterexample: a webhook payload whose egressInfo.roomName is
absent but which is otherwise complete is NOT discarded -
handle_egress_webhook invokes process_recording with a missing room name. -/
theorem handle_egress_webhook_missing_roomName_invokes :
    (eInfo dataMissingRoom).roomName = none ∧
    handle_egress_webhook dataMissingRoom = some ("s3://b/calls/x.mp3", none) := by
  decide

/-- Claim C3 amended: for every inbound egress webhook event in which the
event type, egressInfo.status, or egressInfo.fileResults[0].location is
absent, handle_egress_webhook logs and discards the event without invoking
process_recording and without surfacing an error; an absent
egressInfo.roomName alone does not cause the event to be discarded. -/
theorem handle_egress_webhook_discards_missing_fields (data : WebhookData)
    (h : data.event = none ∨ (eInfo data).status = none ∨ (eInfo data).fileResults = [] ∨
         (∃ f rest, (eInfo data).fileResults = f :: rest ∧ f.location = none)) :
    handle_egress_webhook data = none := by
  unfold handle_egress_webhook
  by_cases hev : data.event = some "egress_ended"
  · rcases h with h | h | h | ⟨f, rest, hfr, hloc⟩
    · simp [hev] at h
    · simp [hev, h]
    · simp [hev, h]
    · simp [hev]
      intro hs
      rw [hfr]
      simp [hloc]
  · simp [hev]

theorem handle_egress_webhook_discards_missing_fields_witness :
    handle_egress_webhook ⟨some "egress_ended", some ⟨some "r", none, []⟩⟩ = none :=
  handle_egress_webhook_discards_missing_fields _ (Or.inr (Or.inl rfl))

/-- Claim C4: for every payload whose event type is egress_ended but whose
egressInfo.status differs from EGRESS_COMPLETE, or whose
egressInfo.fileResults list is empty, handle_egress_webhook returns
without invoking process_recording. -/
theorem handle_egress_webhook_not_complete_or_no_files (data : WebhookData)
    (hev : data.event = some "egress_ended")
    (h : (eInfo data).status ≠ some "EGRESS_COMPLETE" ∨ (eInfo data).fileResults = []) :
    handle_egress_webhook data = none := by
  unfold handle_egress_webhook
  rcases h with h | h
  · simp [hev, h]
  · simp [hev, h]

theorem handle_egress_webhook_not_complete_witness :
    handle_egress_webhook
      ⟨some "egress_ended", some ⟨some "r", some "EGRESS_FAILED", [⟨some "s3://b/x.mp3"⟩]⟩⟩ = none :=
  handle_egress_webhook_not_complete_or_no_files _ rfl (Or.inl (by decide))

end Telnyx

namespace Telnyx

/-- Claim C5: when the download succeeds and the selected transcription
provider raises, the exception propagates out of process_recording,
exactly one provider invocation appears in the trace (no fallback), and
no outbound transcript webhook POST is made. -/
theorem process_recording_transcribe_error_propagates (cfg : Config) (w : World) (fs : FS)
    (s3_path room_name e : String)
    (hd : w.downloadOk = true)
    (ht : transcribeOracle cfg w = some (Except.error e)) :
    (process_recording cfg w fs s3_path room_name).1 = Except.error e ∧
    ((process_recording cfg w fs s3_path room_name).2.2).filter isTranscribeCall
      = [Effect.transcribeCall cfg.STT_PROVIDER (tmpLocalPath room_name)] ∧
    ((process_recording cfg w fs s3_path room_name).2.2).filter isWebhookPost = [] := by
  by_cases h1 : cfg.STT_PROVIDER = "openai"
  · have hres : w.transcribeOpenaiResult = Except.error e := by
      simpa [transcribeOracle, h1] using ht
    refine ⟨?_, ?_, ?_⟩ <;>
      simp [process_recording, download_from_s3, transcribe_openai, h1, hd, hres,
        isTranscribeCall, isWebhookPost]
  · by_cases h2 : cfg.STT_PROVIDER = "google"
    · have hres : w.transcribeGoogleResult = Except.error e := by
        simpa [transcribeOracle, h1, h2] using ht
      refine ⟨?_, ?_, ?_⟩ <;>
        simp [process_recording, download_from_s3, transcribe_google, h1, h2, hd, hres,
          isTranscribeCall, isWebhookPost]
    · by_cases h3 : cfg.STT_PROVIDER = "deepgram"
      · have hres : w.transcribeDeepgramResult = Except.error e := by
          simpa [transcribeOracle, h1, h2, h3] using ht
        refine ⟨?_, ?_, ?_⟩ <;>
          simp [process_recording, download_from_s3, transcribe_deepgram, h1, h2, h3, hd, hres,
            isTranscribeCall, isWebhookPost]
      · simp [transcribeOracle, h1, h2, h3] at ht

theorem process_recording_transcribe_error_witness :
    (process_recording cfgEx
      ⟨true, false, Except.error "boom", Except.ok "g", Except.ok "d",
       Except.ok 200, Except.ok "id", some "r1", Except.ok ()⟩
      fsEmpty "s3://mybucket/calls/r1.mp3" "r1").1 = Except.error "boom" :=
  (process_recording_transcribe_error_propagates cfgEx
    ⟨true, false, Except.error "boom", Except.ok "g", Except.ok "d",
     Except.ok 200, Except.ok "id", some "r1", Except.ok ()⟩
    fsEmpty "s3://mybucket/calls/r1.mp3" "r1" "boom" rfl rfl).1

/-- Claim C6: when STT_PROVIDER is none of openai, google, deepgram,
process_recording returns normally after logging, with no transcription
provider invocation and no outbound webhook POST in the trace. -/
theorem process_recording_unknown_provider_aborts (cfg : Config) (w : World) (fs : FS)
    (s3_path room_name : String)
    (h1 : cfg.STT_PROVIDER ≠ "openai") (h2 : cfg.STT_PROVIDER ≠ "google")
    (h3 : cfg.STT_PROVIDER ≠ "deepgram") :
    (process_recording cfg w fs s3_path room_name).1 = Except.ok () ∧
    ((process_recording cfg w fs s3_path room_name).2.2).filter isTranscribeCall = [] ∧
    ((process_recording cfg w fs s3_path room_name).2.2).filter isWebhookPost = [] := by
  by_cases hd : w.downloadOk <;>
    refine ⟨?_, ?_, ?_⟩ <;>
      simp [process_recording, download_from_s3, h1, h2, h3, hd,
        isTranscribeCall, isWebhookPost]

theorem process_recording_unknown_provider_witness :
    (process_recording ⟨"b", "r", "a", "s", "e", true, "whisperx", "https://h"⟩ wEx
      fsEmpty "s3://b/calls/r1.mp3" "r1").1 = Except.ok () :=
  (process_recording_unknown_provider_aborts
    ⟨"b", "r", "a", "s", "e", true, "whisperx", "https://h"⟩ wEx
    fsEmpty "s3://b/calls/r1.mp3" "r1" (by decide) (by decide) (by decide)).1

/-- Claim C7: with no webhook URL configured send_transcript_webhook makes no
POST; with a URL configured it issues exactly one POST whose JSON body has
exactly the keys room_name, transcript, audio_file and stt_provider, with
a 30-second timeout; and a POST failure never aborts the job: whenever
transcription succeeded, process_recording still returns normally for
every POST outcome. -/
theorem send_transcript_webhook_spec (cfg : Config) (w : World) (fs : FS)
    (s3_path room_name transcript : String) :
    (cfg.TRANSCRIPT_WEBHOOK_URL = "" →
       send_transcript_webhook cfg room_name transcript s3_path = []) ∧
    (cfg.TRANSCRIPT_WEBHOOK_URL ≠ "" →
       send_transcript_webhook cfg room_name transcript s3_path =
         [Effect.webhookPost cfg.TRANSCRIPT_WEBHOOK_URL
           [("room_name", room_name), ("transcript", transcript),
            ("audio_file", s3_path), ("stt_provider", cfg.STT_PROVIDER)] 30]) ∧
    (w.downloadOk = true → transcribeOracle cfg w = some (Except.ok transcript) →
       (process_recording cfg w fs s3_path room_name).1 = Except.ok ()) := by
  refine ⟨?_, ?_, ?_⟩
  · intro h; simp [send_transcript_webhook, h]
  · intro h; simp [send_transcript_webhook, h]
  · intro hd ht
    by_cases h1 : cfg.STT_PROVIDER = "openai"
    · have hres : w.transcribeOpenaiResult = Except.ok transcript := by
        simpa [transcribeOracle, h1] using ht
      simp [process_recording, download_from_s3, transcribe_openai, h1, hd, hres]
    · by_cases h2 : cfg.STT_PROVIDER = "google"
      · have hres : w.transcribeGoogleResult = Except.ok transcript := by
          simpa [transcribeOracle, h1, h2] using ht
        simp [process_recording, download_from_s3, transcribe_google, h1, h2, hd, hres]
      · by_cases h3 : cfg.STT_PROVIDER = "deepgram"
        · have hres : w.transcribeDeepgramResult = Except.ok transcript := by
            simpa [transcribeOracle, h1, h2, h3] using ht
          simp [process_recording, download_from_s3, transcribe_deepgram, h1, h2, h3, hd, hres]
        · simp [transcribeOracle, h1, h2, h3] at ht

theorem send_transcript_webhook_spec_witness :
    send_transcript_webhook cfgEx "r1" "hello there" "s3://mybucket/calls/r1.mp3" =
      [Effect.webhookPost "https://hook.example"
        [("room_name", "r1"), ("transcript", "hello there"),
         ("audio_file", "s3://mybucket/calls/r1.mp3"), ("stt_provider", "openai")] 30] := by
  have h := (send_transcript_webhook_spec cfgEx wEx fsEmpty
    "s3://mybucket/calls/r1.mp3" "r1" "hello there").2.1 (by decide)
  rw [h]
  rfl

/-- Claim C8: the object-storage path used by the recording starter (bucket
plus filepath of the egress request) and by the CLI invocation of the
processor is exactly s3://(bucket)/calls/(room_name).mp3; in particular
for room-42 it is s3://(bucket)/calls/room-42.mp3. -/
theorem storage_path_convention (cfg : Config) (w : World) (room_name : String)
    (hen : cfg.ENABLE_RECORDING = true)
    (hb : cfg.S3_BUCKET ≠ "") (hr : cfg.S3_REGION ≠ "")
    (ha : cfg.S3_ACCESS_KEY ≠ "") (hs : cfg.S3_SECRET_KEY ≠ "") :
    (start_recording cfg w room_name).2 =
      [Effect.egressStart room_name ("calls/" ++ room_name ++ ".mp3") cfg.S3_BUCKET
        cfg.S3_REGION cfg.S3_ACCESS_KEY cfg.S3_SECRET_KEY cfg.S3_ENDPOINT true true] ∧
    "s3://" ++ cfg.S3_BUCKET ++ "/" ++ ("calls/" ++ room_name ++ ".mp3") =
      cli_s3_path cfg room_name ∧
    cli_s3_path cfg "room-42" = "s3://" ++ cfg.S3_BUCKET ++ "/calls/room-42.mp3" := by
  refine ⟨?_, ?_, ?_⟩
  · cases he : w.egressResult <;>
      simp [start_recording, hen, hb, hr, ha, hs, he]
  · unfold cli_s3_path
    apply String.ext
    have h1 : ("/calls/" : String).data = ("/" : String).data ++ ("calls/" : String).data := by
      rfl
    simp [String.data_append, h1, List.append_assoc]
  · unfold cli_s3_path
    apply String.ext
    have h1 : ("/calls/room-42.mp3" : String).data =
        ("/calls/" : String).data ++ ("room-42" : String).data ++ (".mp3" : String).data := by
      rfl
    simp [String.data_append, h1, List.append_assoc]

theorem storage_path_convention_witness :
    cli_s3_path cfgEx "room-42" = "s3://mybucket/calls/room-42.mp3" := by
  have h := (storage_path_convention cfgEx wEx "room-42" rfl
    (by decide) (by decide) (by decide) (by decide)).2.2
  rw [h]
  decide

end Telnyx
